import Mathlib

/-!
Verification of the grpc-go sample server (`server/main.go`): a shallow
embedding of the protocol multiplexer, the unary / server-streaming /
client-streaming / bidirectional gRPC handlers, and the REST handlers,
together with theorems settling the specification claims.

Modelling conventions:
* Wall-clock-derived metadata values (RFC3339 timestamps, unix-time stream
  ids) are inputs from the environment; handlers take them as explicit
  `String` parameters named after the metadata key they populate.
* `metadata.Pairs` values become association lists `List (String × String)`.
* A stream's receive direction is a `RecvStream`: the successfully received
  messages in order, then the terminating event (`io.EOF` or a receive
  error); items a handler never reads cannot influence it, so this captures
  every observable input.
* The transport's send direction is a `SendOracle`: for each send index it
  yields `none` (success) or `some e` (the error `stream.Send` returns).
* A handler execution is reified as a trace of `StreamEvent`s plus the
  handler's returned `error` (`none` = `nil`).
-/

/-- `metadata.MD` restricted to what the server builds with `metadata.Pairs`:
an association list of key/value pairs. -/
abbrev Metadata := List (String × String)

/-- First value stored under a key, like `md.Get(key)` on pair-built metadata. -/
def Metadata.get : Metadata → String → Option String
  | [], _ => none
  | (k, v) :: rest, key => if k = key then some v else Metadata.get rest key

/-- `hello.HelloRequest`: single `name` field. -/
structure HelloRequest where
  name : String
deriving DecidableEq, Repr

/-- `hello.HelloReply`: single `message` field. -/
structure HelloReply where
  message : String
deriving DecidableEq, Repr

/-- `goodbye.GoodbyeRequest`: single `name` field. -/
structure GoodbyeRequest where
  name : String
deriving DecidableEq, Repr

/-- `goodbye.GoodbyeReply`: single `message` field. -/
structure GoodbyeReply where
  message : String
deriving DecidableEq, Repr

/-! ## Protocol multiplexer (`createMultiplexedHandler`) -/

/-- The request attributes the multiplexer inspects: `r.ProtoMajor` and
`r.Header.Get("Content-Type")`. -/
structure MuxRequest where
  protoMajor : Nat
  contentType : String
deriving DecidableEq, Repr

/-- The two downstream handlers of the multiplexer. -/
inductive Route where
  | grpc
  | rest
deriving DecidableEq, Repr

/-- Go's `strings.HasPrefix(s, pre)`: `pre` is a leading substring of `s`,
computed over the character sequences. -/
def hasPrefixGo (s pre : String) : Bool := pre.data.isPrefixOf s.data

/-- The classification in `createMultiplexedHandler`:
`r.ProtoMajor == 2 && strings.HasPrefix(r.Header.Get("Content-Type"), "application/grpc")`
selects the gRPC server, everything else the REST router. -/
def routeRequest (r : MuxRequest) : Route :=
  if r.protoMajor = 2 ∧ hasPrefixGo r.contentType "application/grpc" = true then
    Route.grpc
  else
    Route.rest

/-! ## Unary handlers -/

/-- A unary handler run: the headers it sends, the trailers it sets, and its
single reply (both Go handlers always return a `nil` error). -/
structure UnaryOutcome (Reply : Type) where
  header : Metadata
  trailer : Metadata
  reply : Reply
deriving DecidableEq, Repr

/-- `helloServer.SayHello`: `timestamp` and `responseId` stand for the
clock-derived header values. -/
def helloServer.SayHello (timestamp responseId : String) (req : HelloRequest) :
    UnaryOutcome HelloReply :=
  { header := [("server-name", "grpc-sample-server"), ("method", "SayHello"),
               ("timestamp", timestamp), ("response-id", responseId)]
    trailer := [("processing-time", "fast"), ("server-version", "1.0.0")]
    reply := { message := "Hello " ++ req.name } }

/-- `goodbyeServer.SayGoodbye`: `timestamp` and `sessionEnded` stand for the
clock-derived metadata values. -/
def goodbyeServer.SayGoodbye (timestamp sessionEnded : String) (req : GoodbyeRequest) :
    UnaryOutcome GoodbyeReply :=
  { header := [("server-name", "grpc-sample-server"), ("method", "SayGoodbye"),
               ("timestamp", timestamp), ("farewell-type", "friendly")]
    trailer := [("goodbye-processed", "true"), ("session-ended", sessionEnded)]
    reply := { message := "Goodbye " ++ req.name ++ "! See you later!" } }

/-! ## Streaming infrastructure -/

/-- One observable step of a streaming handler. `setTrailer` records
`stream.SetTrailer`, `sentReplyAndClosed` records `stream.SendAndClose`. -/
inductive StreamEvent where
  | recvMsg (name : String)
  | recvEOF
  | recvFailed (e : String)
  | sentHeader (md : Metadata)
  | sentMsg (m : String)
  | sendFailed (e : String)
  | setTrailer (md : Metadata)
  | sentReplyAndClosed (m : String)
deriving DecidableEq, Repr

/-- How a stream's receive direction terminates: `io.EOF` or another error. -/
inductive Terminator where
  | eof
  | recvErr (e : String)
deriving DecidableEq, Repr

/-- The observable receive direction of a stream: messages delivered in
order, then the terminating `Recv` outcome. Anything after the terminator
is never read by the handlers, so it carries no information. -/
structure RecvStream where
  msgs : List String
  term : Terminator
deriving DecidableEq, Repr

/-- Transport behaviour of the send direction: the outcome of the n-th
`Send`-type call (0-based), `none` for success, `some e` for the error the
call returns. -/
def SendOracle := Nat → Option String

/-- The all-successful transport: every send succeeds. -/
def sendOk : SendOracle := fun _ => none

/-- The sending loop shared by the server-streaming handlers: send each
prepared message in order; a send error aborts the loop and is returned
(`if err := stream.Send(reply); err != nil { return err }`). -/
def streamSendLoop (so : SendOracle) : List String → Nat → List StreamEvent × Option String
  | [], _ => ([], none)
  | m :: rest, i =>
      match so i with
      | some e => ([StreamEvent.sendFailed e], some e)
      | none =>
          let r := streamSendLoop so rest (i + 1)
          (StreamEvent.sentMsg m :: r.1, r.2)

/-- `helloServer.SayHelloStream`: header, five messages
`"Hello {name} - Message {i}"` for i = 1..5, then the trailer. `streamId`
stands for the clock-derived header value. -/
def helloServer.SayHelloStream (streamId : String) (so : SendOracle) (req : HelloRequest) :
    List StreamEvent × Option String :=
  let header : Metadata :=
    [("server-name", "grpc-sample-server"), ("method", "SayHelloStream"),
     ("stream-id", streamId), ("expected-messages", "5")]
  let msgs := (List.range 5).map
    (fun i => "Hello " ++ req.name ++ " - Message " ++ toString (i + 1))
  let r := streamSendLoop so msgs 0
  match r.2 with
  | some e => (StreamEvent.sentHeader header :: r.1, some e)
  | none =>
      let trailer : Metadata :=
        [("messages-sent", "5"), ("stream-duration", "5s"), ("stream-status", "completed")]
      (StreamEvent.sentHeader header :: r.1 ++ [StreamEvent.setTrailer trailer], none)

/-- The goodbye stream templates, split at their single `%s` hole:
`fmt.Sprintf(template, name)` becomes `pre ++ name ++ post`. -/
def goodbyeMessages : List (String × String) :=
  [("Thanks for using our service, ", "!"),
   ("It was great having you, ", "!"),
   ("Until we meet again, ", "! Farewell!")]

/-- `goodbyeServer.SayGoodbyeStream`: header, the three templated messages,
then the trailer. `streamId` and `farewellCompleted` stand for the
clock-derived metadata values. -/
def goodbyeServer.SayGoodbyeStream (streamId farewellCompleted : String) (so : SendOracle)
    (req : GoodbyeRequest) : List StreamEvent × Option String :=
  let header : Metadata :=
    [("server-name", "grpc-sample-server"), ("method", "SayGoodbyeStream"),
     ("stream-id", streamId), ("expected-messages", "3"), ("farewell-type", "streaming")]
  let msgs := goodbyeMessages.map (fun t => t.1 ++ req.name ++ t.2)
  let r := streamSendLoop so msgs 0
  match r.2 with
  | some e => (StreamEvent.sentHeader header :: r.1, some e)
  | none =>
      let trailer : Metadata :=
        [("messages-sent", "3"), ("stream-duration", "4.5s"),
         ("stream-status", "completed"), ("farewell-completed", farewellCompleted)]
      (StreamEvent.sentHeader header :: r.1 ++ [StreamEvent.setTrailer trailer], none)

/-! ## Client-streaming handlers -/

/-- The accumulation loop of the client-streaming handlers:
`messageCount++; names = append(names, req.GetName())` per received message,
returning the final `(names, messageCount)` when `Recv` yields `io.EOF`. -/
def collectLoop : List String → List String → Nat → List String × Nat
  | [], names, count => (names, count)
  | n :: rest, names, count => collectLoop rest (names ++ [n]) (count + 1)

/-- The receive phase of a streaming handler as trace events. -/
def recvEvents (s : RecvStream) : List StreamEvent :=
  s.msgs.map StreamEvent.recvMsg ++
    [match s.term with
     | Terminator.eof => StreamEvent.recvEOF
     | Terminator.recvErr e => StreamEvent.recvFailed e]

/-- `helloServer.SayHelloClientStream`: header, accumulate all messages; on
`io.EOF` build the summary from `names`, set the trailer from
`messageCount`/`names`, and `SendAndClose` the single reply (whose error is
returned); on any other receive error return it at once (no trailer, no
reply). `streamId` stands for the clock-derived header value; the single
`SendAndClose` consults the oracle at index 0. -/
def helloServer.SayHelloClientStream (streamId : String) (so : SendOracle) (s : RecvStream) :
    List StreamEvent × Option String :=
  let header : Metadata :=
    [("server-name", "grpc-sample-server"), ("method", "SayHelloClientStream"),
     ("stream-id", streamId), ("stream-type", "client-streaming")]
  match s.term with
  | Terminator.recvErr e =>
      (StreamEvent.sentHeader header :: recvEvents s, some e)
  | Terminator.eof =>
      let r := collectLoop s.msgs [] 0
      let names := r.1
      let messageCount := r.2
      let summary := "Hello to all " ++ toString names.length ++ " friends: " ++
        String.intercalate ", " names ++ "!"
      let trailer : Metadata :=
        [("messages-received", toString messageCount),
         ("names-processed", String.intercalate "," names),
         ("stream-status", "completed"), ("processing-time", "batch")]
      match so 0 with
      | some e =>
          (StreamEvent.sentHeader header :: recvEvents s ++
            [StreamEvent.setTrailer trailer, StreamEvent.sendFailed e], some e)
      | none =>
          (StreamEvent.sentHeader header :: recvEvents s ++
            [StreamEvent.setTrailer trailer, StreamEvent.sentReplyAndClosed summary], none)

/-- `goodbyeServer.SayGoodbyeClientStream`: same shape as the hello variant
with the farewell summary and trailer; `streamId` and `sessionEnded` stand
for the clock-derived metadata values. -/
def goodbyeServer.SayGoodbyeClientStream (streamId sessionEnded : String) (so : SendOracle)
    (s : RecvStream) : List StreamEvent × Option String :=
  let header : Metadata :=
    [("server-name", "grpc-sample-server"), ("method", "SayGoodbyeClientStream"),
     ("stream-id", streamId), ("stream-type", "client-streaming"),
     ("farewell-type", "batch")]
  match s.term with
  | Terminator.recvErr e =>
      (StreamEvent.sentHeader header :: recvEvents s, some e)
  | Terminator.eof =>
      let r := collectLoop s.msgs [] 0
      let names := r.1
      let messageCount := r.2
      let summary := "Farewell to all " ++ toString names.length ++ " wonderful people: " ++
        String.intercalate ", " names ++ "! May your paths be bright!"
      let trailer : Metadata :=
        [("messages-received", toString messageCount),
         ("names-processed", String.intercalate "," names),
         ("stream-status", "completed"), ("farewell-type", "collective"),
         ("session-ended", sessionEnded)]
      match so 0 with
      | some e =>
          (StreamEvent.sentHeader header :: recvEvents s ++
            [StreamEvent.setTrailer trailer, StreamEvent.sendFailed e], some e)
      | none =>
          (StreamEvent.sentHeader header :: recvEvents s ++
            [StreamEvent.setTrailer trailer, StreamEvent.sentReplyAndClosed summary], none)

/-! ## Bidirectional handlers -/

/-- `fmt.Sprintf("%.1fs", ...)` of a value given in tenths of a second. -/
def durTenths (tenths : Nat) : String :=
  toString (tenths / 10) ++ "." ++ toString (tenths % 10) ++ "s"

/-- `fmt.Sprintf("%.1fs", float64(count)*0.75)`: the exact value in
twentieths is `15 * count`; rounding to tenths is exact or a tie, and Go's
formatter rounds ties to the even tenth. -/
def durThreeQuarters (count : Nat) : String :=
  let h := 15 * count
  let q := h / 2
  durTenths (if h % 2 = 0 then q else if q % 2 = 0 then q else q + 1)

/-- The per-message reply of `SayHelloBidirectional`:
`fmt.Sprintf("Hello %s! (Message %d received)", name, messageCount)`. -/
def helloBidiReply (name : String) (count : Nat) : String :=
  "Hello " ++ name ++ "! (Message " ++ toString count ++ " received)"

/-- The farewell templates of `SayGoodbyeBidirectional`, split at their
single `%s` hole. -/
def farewellMessages : List (String × String) :=
  [("Take care, ", "!"),
   ("Safe travels, ", "!"),
   ("Until next time, ", "!"),
   ("Farewell, dear ", "!"),
   ("Goodbye and good luck, ", "!")]

/-- The per-message reply of `SayGoodbyeBidirectional`:
`fmt.Sprintf(farewellMessages[(messageCount-1)%5] + " (Farewell %d)", name, messageCount)`. -/
def goodbyeBidiReply (name : String) (count : Nat) : String :=
  let t := farewellMessages.getD ((count - 1) % farewellMessages.length) ("", "")
  t.1 ++ name ++ t.2 ++ " (Farewell " ++ toString count ++ ")"

/-- The bidirectional loop: per received message increment the counter,
append the name, send one reply built by `render` from the name and the new
counter; a send error aborts the loop and is returned. Yields the trace
events, the accumulated names, the final counter, and the send error if
any. -/
def bidiLoop (so : SendOracle) (render : String → Nat → String) :
    List String → List String → Nat → List StreamEvent × List String × Nat × Option String
  | [], names, count => ([], names, count, none)
  | n :: rest, names, count =>
      let reply := render n (count + 1)
      match so count with
      | some e =>
          ([StreamEvent.recvMsg n, StreamEvent.sendFailed e],
           names ++ [n], count + 1, some e)
      | none =>
          let r := bidiLoop so render rest (names ++ [n]) (count + 1)
          (StreamEvent.recvMsg n :: StreamEvent.sentMsg reply :: r.1, r.2)

/-- `helloServer.SayHelloBidirectional`: header; the 1:1 receive/reply loop;
on `io.EOF` set the trailer and return success; a receive or send error is
returned at once without the trailer. `streamId` stands for the
clock-derived header value. -/
def helloServer.SayHelloBidirectional (streamId : String) (so : SendOracle) (s : RecvStream) :
    List StreamEvent × Option String :=
  let header : Metadata :=
    [("server-name", "grpc-sample-server"), ("method", "SayHelloBidirectional"),
     ("stream-id", streamId), ("stream-type", "bidirectional")]
  let r := bidiLoop so helloBidiReply s.msgs [] 0
  match r.2.2.2 with
  | some e => (StreamEvent.sentHeader header :: r.1, some e)
  | none =>
      match s.term with
      | Terminator.recvErr e =>
          (StreamEvent.sentHeader header :: r.1 ++ [StreamEvent.recvFailed e], some e)
      | Terminator.eof =>
          let messageCount := r.2.2.1
          let trailer : Metadata :=
            [("messages-exchanged", toString messageCount),
             ("names-processed", String.intercalate "," r.2.1),
             ("stream-status", "completed"),
             ("stream-duration", durTenths (5 * messageCount))]
          (StreamEvent.sentHeader header :: r.1 ++
            [StreamEvent.recvEOF, StreamEvent.setTrailer trailer], none)

/-- `goodbyeServer.SayGoodbyeBidirectional`: like the hello variant with the
cycling farewell templates and its own trailer; `streamId` and
`finalFarewell` stand for the clock-derived metadata values. -/
def goodbyeServer.SayGoodbyeBidirectional (streamId finalFarewell : String) (so : SendOracle)
    (s : RecvStream) : List StreamEvent × Option String :=
  let header : Metadata :=
    [("server-name", "grpc-sample-server"), ("method", "SayGoodbyeBidirectional"),
     ("stream-id", streamId), ("stream-type", "bidirectional"),
     ("farewell-type", "interactive")]
  let r := bidiLoop so goodbyeBidiReply s.msgs [] 0
  match r.2.2.2 with
  | some e => (StreamEvent.sentHeader header :: r.1, some e)
  | none =>
      match s.term with
      | Terminator.recvErr e =>
          (StreamEvent.sentHeader header :: r.1 ++ [StreamEvent.recvFailed e], some e)
      | Terminator.eof =>
          let messageCount := r.2.2.1
          let trailer : Metadata :=
            [("farewells-exchanged", toString messageCount),
             ("names-processed", String.intercalate "," r.2.1),
             ("stream-status", "completed"),
             ("stream-duration", durThreeQuarters messageCount),
             ("final-farewell", finalFarewell)]
          (StreamEvent.sentHeader header :: r.1 ++
            [StreamEvent.recvEOF, StreamEvent.setTrailer trailer], none)

/-! ## REST handlers (`handleSayHelloHTTP`, `handleSayGoodbyeHTTP`) -/

/-- The HTTP methods the handlers distinguish. -/
inductive HTTPMethod where
  | get
  | post
  | options
  | other
deriving DecidableEq, Repr

/-- A REST request as the handlers observe it: the method, the value of
`r.URL.Query().Get("name")` (Go returns `""` when the parameter is absent,
so missing and empty coincide), and for POST the outcome of decoding the
JSON body into the request struct (`Except.error` = malformed JSON; a JSON
object without a `name` field decodes to the zero value `""`). -/
structure RESTRequest where
  method : HTTPMethod
  queryName : String
  body : Except String HelloRequest
deriving Repr

/-- The observable result of a REST handler. `okJSON m` is a 200 response
whose JSON body wraps `m` in the one-field response object; `httpError`
records `http.Error(w, text, code)`; `emptyOK` is the 200/empty-body
answer to an OPTIONS preflight. -/
inductive RESTResult where
  | okJSON (message : String)
  | httpError (text : String) (code : Nat)
  | emptyOK
deriving DecidableEq, Repr

/-- `helloServer.handleSayHelloHTTP`. Returns the response and, when the
business function `SayHello` was invoked, the name it was invoked with.
The Go handler checks OPTIONS, then GET (query parameter, default
`"World"`), then POST (JSON body, default `"World"`, 400 on bad JSON),
else 405; `SayHello` never returns an error, so the 500 branch is dead. -/
def helloServer.handleSayHelloHTTP (ts rid : String) (r : RESTRequest) :
    RESTResult × Option String :=
  match r.method with
  | HTTPMethod.options => (RESTResult.emptyOK, none)
  | HTTPMethod.get =>
      let name := if r.queryName = "" then "World" else r.queryName
      let resp := helloServer.SayHello ts rid { name := name }
      (RESTResult.okJSON resp.reply.message, some name)
  | HTTPMethod.post =>
      match r.body with
      | Except.error _ => (RESTResult.httpError "Invalid JSON" 400, none)
      | Except.ok req =>
          let name := if req.name = "" then "World" else req.name
          let resp := helloServer.SayHello ts rid { name := name }
          (RESTResult.okJSON resp.reply.message, some name)
  | HTTPMethod.other => (RESTResult.httpError "Method not allowed" 405, none)

/-- `goodbyeServer.handleSayGoodbyeHTTP`: same shape with default
`"Friend"` and the goodbye business function. The Go body decodes into
`GoodbyeRequest`, which has the same single `name` field. -/
def goodbyeServer.handleSayGoodbyeHTTP (ts se : String) (r : RESTRequest) :
    RESTResult × Option String :=
  match r.method with
  | HTTPMethod.options => (RESTResult.emptyOK, none)
  | HTTPMethod.get =>
      let name := if r.queryName = "" then "Friend" else r.queryName
      let resp := goodbyeServer.SayGoodbye ts se { name := name }
      (RESTResult.okJSON resp.reply.message, some name)
  | HTTPMethod.post =>
      match r.body with
      | Except.error _ => (RESTResult.httpError "Invalid JSON" 400, none)
      | Except.ok req =>
          let name := if req.name = "" then "Friend" else req.name
          let resp := goodbyeServer.SayGoodbye ts se { name := name }
          (RESTResult.okJSON resp.reply.message, some name)
  | HTTPMethod.other => (RESTResult.httpError "Method not allowed" 405, none)

/-! ## Trace helper functions -/

/-- Is the event a `SendAndClose` (the single client-stream reply)? -/
def isReplyClose : StreamEvent → Bool
  | StreamEvent.sentReplyAndClosed _ => true
  | _ => false

/-- Is the event a `SetTrailer`? -/
def isTrailerSet : StreamEvent → Bool
  | StreamEvent.setTrailer _ => true
  | _ => false

/-- The payload messages a trace sent via `stream.Send`. -/
def sentPayloads : List StreamEvent → List String
  | [] => []
  | StreamEvent.sentMsg m :: rest => m :: sentPayloads rest
  | _ :: rest => sentPayloads rest

/-- The trailer metadata instances a trace set. -/
def trailersOf : List StreamEvent → List Metadata
  | [] => []
  | StreamEvent.setTrailer md :: rest => md :: trailersOf rest
  | _ :: rest => trailersOf rest

/-- The trace of a fully successful bidirectional loop: receive/reply pairs
in arrival order. -/
def bidiEvents (render : String → Nat → String) : List String → Nat → List StreamEvent
  | [], _ => []
  | n :: rest, count =>
      StreamEvent.recvMsg n :: StreamEvent.sentMsg (render n (count + 1)) ::
        bidiEvents render rest (count + 1)

/-- The replies a fully successful bidirectional loop sends. -/
def renderAll (render : String → Nat → String) : List String → Nat → List String
  | [], _ => []
  | n :: rest, count => render n (count + 1) :: renderAll render rest (count + 1)

/-! ## Helper lemmas -/

theorem collectLoop_eq (msgs names : List String) (count : Nat) :
    collectLoop msgs names count = (names ++ msgs, count + msgs.length) := by
  induction msgs generalizing names count with
  | nil => simp [collectLoop]
  | cons n rest ih =>
      simp only [collectLoop, ih, Prod.mk.injEq, List.length_cons]
      exact ⟨by simp, by omega⟩

theorem streamSendLoop_ok (so : SendOracle) (msgs : List String) (i : Nat)
    (h : ∀ j, j < msgs.length → so (i + j) = none) :
    streamSendLoop so msgs i = (msgs.map StreamEvent.sentMsg, none) := by
  induction msgs generalizing i with
  | nil => simp [streamSendLoop]
  | cons m rest ih =>
      have h0 : so i = none := by simpa using h 0 (by simp)
      have hrest : ∀ j, j < rest.length → so (i + 1 + j) = none := by
        intro j hj
        have := h (j + 1) (by simpa using Nat.succ_lt_succ hj)
        simpa [Nat.add_assoc, Nat.add_comm 1 j] using this
      simp [streamSendLoop, h0, ih (i + 1) hrest]

theorem bidiLoop_ok (so : SendOracle) (render : String → Nat → String)
    (msgs names : List String) (count : Nat)
    (h : ∀ j, j < msgs.length → so (count + j) = none) :
    bidiLoop so render msgs names count =
      (bidiEvents render msgs count, names ++ msgs, count + msgs.length, none) := by
  induction msgs generalizing names count with
  | nil => simp [bidiLoop, bidiEvents]
  | cons n rest ih =>
      have h0 : so count = none := by simpa using h 0 (by simp)
      have hrest : ∀ j, j < rest.length → so (count + 1 + j) = none := by
        intro j hj
        have := h (j + 1) (by simpa using Nat.succ_lt_succ hj)
        simpa [Nat.add_assoc, Nat.add_comm 1 j] using this
      simp only [bidiLoop, h0, ih (names ++ [n]) (count + 1) hrest, bidiEvents,
        Prod.mk.injEq, List.length_cons]
      exact ⟨trivial, by simp, by omega, trivial⟩

theorem filter_map_recvMsg (p : StreamEvent → Bool)
    (hp : ∀ n, p (StreamEvent.recvMsg n) = false) (l : List String) :
    (l.map StreamEvent.recvMsg).filter p = [] := by
  induction l with
  | nil => rfl
  | cons n rest ih => simp [List.filter, hp, ih]

theorem any_map_recvMsg (p : StreamEvent → Bool)
    (hp : ∀ n, p (StreamEvent.recvMsg n) = false) (l : List String) :
    (l.map StreamEvent.recvMsg).any p = false := by
  induction l with
  | nil => rfl
  | cons n rest ih => simp [List.any, hp, ih]

theorem sentPayloads_append (a b : List StreamEvent) :
    sentPayloads (a ++ b) = sentPayloads a ++ sentPayloads b := by
  induction a with
  | nil => rfl
  | cons e rest ih => cases e <;> simp [sentPayloads, ih]

theorem trailersOf_append (a b : List StreamEvent) :
    trailersOf (a ++ b) = trailersOf a ++ trailersOf b := by
  induction a with
  | nil => rfl
  | cons e rest ih => cases e <;> simp [trailersOf, ih]

theorem sentPayloads_map_recvMsg (l : List String) :
    sentPayloads (l.map StreamEvent.recvMsg) = [] := by
  induction l with
  | nil => rfl
  | cons n rest ih => simp [sentPayloads, ih]

theorem trailersOf_map_recvMsg (l : List String) :
    trailersOf (l.map StreamEvent.recvMsg) = [] := by
  induction l with
  | nil => rfl
  | cons n rest ih => simp [trailersOf, ih]

theorem sentPayloads_map_sentMsg (l : List String) :
    sentPayloads (l.map StreamEvent.sentMsg) = l := by
  induction l with
  | nil => rfl
  | cons m rest ih => simp [sentPayloads, ih]

theorem sentPayloads_bidiEvents (render : String → Nat → String) (msgs : List String)
    (count : Nat) :
    sentPayloads (bidiEvents render msgs count) = renderAll render msgs count := by
  induction msgs generalizing count with
  | nil => rfl
  | cons n rest ih => simp [bidiEvents, renderAll, sentPayloads, ih]

theorem trailersOf_bidiEvents (render : String → Nat → String) (msgs : List String)
    (count : Nat) : trailersOf (bidiEvents render msgs count) = [] := by
  induction msgs generalizing count with
  | nil => rfl
  | cons n rest ih => simp [bidiEvents, trailersOf, ih]

theorem renderAll_length (render : String → Nat → String) (msgs : List String) (count : Nat) :
    (renderAll render msgs count).length = msgs.length := by
  induction msgs generalizing count with
  | nil => rfl
  | cons n rest ih => simp [renderAll, ih]

theorem renderAll_getD (render : String → Nat → String) (msgs : List String)
    (count i : Nat) (h : i < msgs.length) :
    (renderAll render msgs count).getD i "" = render (msgs.getD i "") (count + i + 1) := by
  induction msgs generalizing count i with
  | nil => simp at h
  | cons n rest ih =>
      cases i with
      | zero => simp [renderAll]
      | succ j =>
          have hj : j < rest.length := by simpa using Nat.lt_of_succ_lt_succ h
          simp only [renderAll, List.getD_cons_succ, ih (count + 1) j hj]
          congr 1
          omega

/-! ## Claim theorems -/

/-- C1. The multiplexed handler routes a request to the gRPC server iff its
HTTP protocol major version is 2 and its Content-Type begins with
"application/grpc"; otherwise (in particular for a plain JSON request on
either protocol version) to the REST router; the two routes are mutually
exclusive since `routeRequest` yields exactly one `Route`. -/
theorem mux_routes_grpc_iff (r : MuxRequest) :
    (routeRequest r = Route.grpc ↔
      (r.protoMajor = 2 ∧ hasPrefixGo r.contentType "application/grpc" = true)) ∧
    (routeRequest r = Route.rest ↔
      ¬ (r.protoMajor = 2 ∧ hasPrefixGo r.contentType "application/grpc" = true)) ∧
    ¬ (routeRequest r = Route.grpc ∧ routeRequest r = Route.rest) ∧
    routeRequest { protoMajor := 2, contentType := "application/grpc+proto" } = Route.grpc ∧
    routeRequest { protoMajor := 2, contentType := "application/json" } = Route.rest ∧
    routeRequest { protoMajor := 1, contentType := "application/json" } = Route.rest := by
  unfold routeRequest
  by_cases h : r.protoMajor = 2 ∧ hasPrefixGo r.contentType "application/grpc" = true <;>
    simp [h] <;> decide

/-- C3. A client-streaming call receiving k names then `io.EOF` produces
exactly one reply, positioned after the end-of-input event; the summary
references all k names in arrival order, the trailer's "messages-received"
is k and its "names-processed" joins the k names in arrival order; no reply
event occurs in the part of the trace preceding end-of-input (the events
before `recvEOF` are the header and the receive events). Both handlers. -/
theorem clientStream_single_reply_after_eof (sid se : String) (so : SendOracle)
    (ns : List String) (hso : so 0 = none) :
    helloServer.SayHelloClientStream sid so { msgs := ns, term := Terminator.eof } =
      (StreamEvent.sentHeader
          [("server-name", "grpc-sample-server"), ("method", "SayHelloClientStream"),
           ("stream-id", sid), ("stream-type", "client-streaming")] ::
        ns.map StreamEvent.recvMsg ++
        [StreamEvent.recvEOF,
         StreamEvent.setTrailer
           [("messages-received", toString ns.length),
            ("names-processed", String.intercalate "," ns),
            ("stream-status", "completed"), ("processing-time", "batch")],
         StreamEvent.sentReplyAndClosed
           ("Hello to all " ++ toString ns.length ++ " friends: " ++
            String.intercalate ", " ns ++ "!")], none) ∧
    (helloServer.SayHelloClientStream sid so { msgs := ns, term := Terminator.eof }).1.filter
        isReplyClose =
      [StreamEvent.sentReplyAndClosed
        ("Hello to all " ++ toString ns.length ++ " friends: " ++
         String.intercalate ", " ns ++ "!")] ∧
    (StreamEvent.sentHeader
          [("server-name", "grpc-sample-server"), ("method", "SayHelloClientStream"),
           ("stream-id", sid), ("stream-type", "client-streaming")] ::
        ns.map StreamEvent.recvMsg).filter isReplyClose = [] ∧
    goodbyeServer.SayGoodbyeClientStream sid se so { msgs := ns, term := Terminator.eof } =
      (StreamEvent.sentHeader
          [("server-name", "grpc-sample-server"), ("method", "SayGoodbyeClientStream"),
           ("stream-id", sid), ("stream-type", "client-streaming"),
           ("farewell-type", "batch")] ::
        ns.map StreamEvent.recvMsg ++
        [StreamEvent.recvEOF,
         StreamEvent.setTrailer
           [("messages-received", toString ns.length),
            ("names-processed", String.intercalate "," ns),
            ("stream-status", "completed"), ("farewell-type", "collective"),
            ("session-ended", se)],
         StreamEvent.sentReplyAndClosed
           ("Farewell to all " ++ toString ns.length ++ " wonderful people: " ++
            String.intercalate ", " ns ++ "! May your paths be bright!")], none) ∧
    (goodbyeServer.SayGoodbyeClientStream sid se so
        { msgs := ns, term := Terminator.eof }).1.filter isReplyClose =
      [StreamEvent.sentReplyAndClosed
        ("Farewell to all " ++ toString ns.length ++ " wonderful people: " ++
         String.intercalate ", " ns ++ "! May your paths be bright!")] := by
  have hfilter := filter_map_recvMsg isReplyClose (fun n => rfl) ns
  refine ⟨?_, ?_, ?_, ?_, ?_⟩ <;>
    simp [helloServer.SayHelloClientStream, goodbyeServer.SayGoodbyeClientStream,
      collectLoop_eq, recvEvents, hso, hfilter, isReplyClose, List.filter_append]

/-- C3 witness: three names, all-successful transport. -/
theorem clientStream_single_reply_after_eof_witness :
    sendOk 0 = none ∧
    (helloServer.SayHelloClientStream "s" sendOk
        { msgs := ["Alice", "Bob", "Charlie"], term := Terminator.eof }).1.filter
        isReplyClose =
      [StreamEvent.sentReplyAndClosed "Hello to all 3 friends: Alice, Bob, Charlie!"] := by
  refine ⟨rfl, ?_⟩
  have h := clientStream_single_reply_after_eof "s" "e" sendOk ["Alice", "Bob", "Charlie"] rfl
  exact h.2.1

/-- C4. A bidirectional call receiving k messages then `io.EOF`, over a
transport whose sends all succeed, produces exactly k replies interleaved
1:1 with the arrivals (the trace is receive/reply pairs in arrival order);
the i-th reply is built from the i-th inbound name and the index i + 1
(0-based i). Both handlers; for the goodbye handler the reply template
cycles through `farewellMessages`. -/
theorem bidi_one_reply_per_message (sid ff : String) (so : SendOracle) (ns : List String)
    (hso : ∀ j, j < ns.length → so j = none) :
    helloServer.SayHelloBidirectional sid so { msgs := ns, term := Terminator.eof } =
      (StreamEvent.sentHeader
          [("server-name", "grpc-sample-server"), ("method", "SayHelloBidirectional"),
           ("stream-id", sid), ("stream-type", "bidirectional")] ::
        bidiEvents helloBidiReply ns 0 ++
        [StreamEvent.recvEOF,
         StreamEvent.setTrailer
           [("messages-exchanged", toString ns.length),
            ("names-processed", String.intercalate "," ns),
            ("stream-status", "completed"),
            ("stream-duration", durTenths (5 * ns.length))]], none) ∧
    sentPayloads
        (helloServer.SayHelloBidirectional sid so { msgs := ns, term := Terminator.eof }).1 =
      renderAll helloBidiReply ns 0 ∧
    (sentPayloads
        (helloServer.SayHelloBidirectional sid so
          { msgs := ns, term := Terminator.eof }).1).length = ns.length ∧
    (∀ i, i < ns.length →
      (sentPayloads
        (helloServer.SayHelloBidirectional sid so
          { msgs := ns, term := Terminator.eof }).1).getD i "" =
        helloBidiReply (ns.getD i "") (i + 1)) ∧
    goodbyeServer.SayGoodbyeBidirectional sid ff so { msgs := ns, term := Terminator.eof } =
      (StreamEvent.sentHeader
          [("server-name", "grpc-sample-server"), ("method", "SayGoodbyeBidirectional"),
           ("stream-id", sid), ("stream-type", "bidirectional"),
           ("farewell-type", "interactive")] ::
        bidiEvents goodbyeBidiReply ns 0 ++
        [StreamEvent.recvEOF,
         StreamEvent.setTrailer
           [("farewells-exchanged", toString ns.length),
            ("names-processed", String.intercalate "," ns),
            ("stream-status", "completed"),
            ("stream-duration", durThreeQuarters ns.length),
            ("final-farewell", ff)]], none) ∧
    (∀ i, i < ns.length →
      (sentPayloads
        (goodbyeServer.SayGoodbyeBidirectional sid ff so
          { msgs := ns, term := Terminator.eof }).1).getD i "" =
        goodbyeBidiReply (ns.getD i "") (i + 1)) := by
  have hloop : ∀ render, bidiLoop so render ns [] 0 =
      (bidiEvents render ns 0, [] ++ ns, 0 + ns.length, none) := by
    intro render
    exact bidiLoop_ok so render ns [] 0 (by simpa using hso)
  have htraceH :
      helloServer.SayHelloBidirectional sid so { msgs := ns, term := Terminator.eof } =
        (StreamEvent.sentHeader
            [("server-name", "grpc-sample-server"), ("method", "SayHelloBidirectional"),
             ("stream-id", sid), ("stream-type", "bidirectional")] ::
          bidiEvents helloBidiReply ns 0 ++
          [StreamEvent.recvEOF,
           StreamEvent.setTrailer
             [("messages-exchanged", toString ns.length),
              ("names-processed", String.intercalate "," ns),
              ("stream-status", "completed"),
              ("stream-duration", durTenths (5 * ns.length))]], none) := by
    simp [helloServer.SayHelloBidirectional, hloop]
  have htraceG :
      goodbyeServer.SayGoodbyeBidirectional sid ff so { msgs := ns, term := Terminator.eof } =
        (StreamEvent.sentHeader
            [("server-name", "grpc-sample-server"), ("method", "SayGoodbyeBidirectional"),
             ("stream-id", sid), ("stream-type", "bidirectional"),
             ("farewell-type", "interactive")] ::
          bidiEvents goodbyeBidiReply ns 0 ++
          [StreamEvent.recvEOF,
           StreamEvent.setTrailer
             [("farewells-exchanged", toString ns.length),
              ("names-processed", String.intercalate "," ns),
              ("stream-status", "completed"),
              ("stream-duration", durThreeQuarters ns.length),
              ("final-farewell", ff)]], none) := by
    simp [goodbyeServer.SayGoodbyeBidirectional, hloop]
  have hpayH : sentPayloads
      (helloServer.SayHelloBidirectional sid so { msgs := ns, term := Terminator.eof }).1 =
        renderAll helloBidiReply ns 0 := by
    rw [htraceH]
    simp [sentPayloads, sentPayloads_append, sentPayloads_bidiEvents]
  have hpayG : sentPayloads
      (goodbyeServer.SayGoodbyeBidirectional sid ff so
        { msgs := ns, term := Terminator.eof }).1 = renderAll goodbyeBidiReply ns 0 := by
    rw [htraceG]
    simp [sentPayloads, sentPayloads_append, sentPayloads_bidiEvents]
  refine ⟨htraceH, hpayH, ?_, ?_, htraceG, ?_⟩
  · rw [hpayH, renderAll_length]
  · intro i hi
    rw [hpayH]
    simpa using renderAll_getD helloBidiReply ns 0 i hi
  · intro i hi
    rw [hpayG]
    simpa using renderAll_getD goodbyeBidiReply ns 0 i hi

/-- C4 witness: two names, all-successful transport; the second hello reply
is built from the second name and index 2. -/
theorem bidi_one_reply_per_message_witness :
    (∀ j, j < (["Ann", "Ben"] : List String).length → sendOk j = none) ∧
    (sentPayloads
      (helloServer.SayHelloBidirectional "s" sendOk
        { msgs := ["Ann", "Ben"], term := Terminator.eof }).1).getD 1 "" =
      "Hello Ben! (Message 2 received)" := by
  refine ⟨fun j _ => rfl, ?_⟩
  have h := bidi_one_reply_per_message "s" "f" sendOk ["Ann", "Ben"] (fun j _ => rfl)
  have h2 := h.2.2.2.1 1 (by decide)
  simpa [helloBidiReply] using h2

/-- C5. A successful server-streaming call (every send succeeds) sends
exactly N payload messages in order — N = 5 for the hello stream, the i-th
being "Hello {name} - Message {i}", and N = 3 for the goodbye stream —
followed by exactly one trailer whose "messages-sent" field equals N. -/
theorem serverStream_messages_then_trailer (sid fc name : String) (so : SendOracle)
    (hso : ∀ i, i < 5 → so i = none) :
    helloServer.SayHelloStream sid so { name := name } =
      (StreamEvent.sentHeader
          [("server-name", "grpc-sample-server"), ("method", "SayHelloStream"),
           ("stream-id", sid), ("expected-messages", "5")] ::
        ((List.range 5).map
          (fun i => "Hello " ++ name ++ " - Message " ++ toString (i + 1))).map
          StreamEvent.sentMsg ++
        [StreamEvent.setTrailer
          [("messages-sent", "5"), ("stream-duration", "5s"),
           ("stream-status", "completed")]], none) ∧
    (sentPayloads (helloServer.SayHelloStream sid so { name := name }).1).length = 5 ∧
    (∀ i, i < 5 →
      (sentPayloads (helloServer.SayHelloStream sid so { name := name }).1).getD i "" =
        "Hello " ++ name ++ " - Message " ++ toString (i + 1)) ∧
    trailersOf (helloServer.SayHelloStream sid so { name := name }).1 =
      [[("messages-sent", "5"), ("stream-duration", "5s"), ("stream-status", "completed")]] ∧
    Metadata.get [("messages-sent", "5"), ("stream-duration", "5s"),
        ("stream-status", "completed")] "messages-sent" = some (toString 5) ∧
    goodbyeServer.SayGoodbyeStream sid fc so { name := name } =
      (StreamEvent.sentHeader
          [("server-name", "grpc-sample-server"), ("method", "SayGoodbyeStream"),
           ("stream-id", sid), ("expected-messages", "3"), ("farewell-type", "streaming")] ::
        [StreamEvent.sentMsg ("Thanks for using our service, " ++ name ++ "!"),
         StreamEvent.sentMsg ("It was great having you, " ++ name ++ "!"),
         StreamEvent.sentMsg ("Until we meet again, " ++ name ++ "! Farewell!")] ++
        [StreamEvent.setTrailer
          [("messages-sent", "3"), ("stream-duration", "4.5s"),
           ("stream-status", "completed"), ("farewell-completed", fc)]], none) ∧
    (sentPayloads (goodbyeServer.SayGoodbyeStream sid fc so { name := name }).1).length = 3 ∧
    trailersOf (goodbyeServer.SayGoodbyeStream sid fc so { name := name }).1 =
      [[("messages-sent", "3"), ("stream-duration", "4.5s"),
        ("stream-status", "completed"), ("farewell-completed", fc)]] ∧
    Metadata.get [("messages-sent", "3"), ("stream-duration", "4.5s"),
        ("stream-status", "completed"), ("farewell-completed", fc)] "messages-sent" =
      some (toString 3) := by
  have hrange : List.range 5 = [0, 1, 2, 3, 4] := rfl
  have hloopH : streamSendLoop so
      ((List.range 5).map (fun i => "Hello " ++ name ++ " - Message " ++ toString (i + 1)))
      0 = (((List.range 5).map
        (fun i => "Hello " ++ name ++ " - Message " ++ toString (i + 1))).map
          StreamEvent.sentMsg, none) := by
    apply streamSendLoop_ok
    intro j hj
    have hj5 : j < 5 := by simpa using hj
    simpa using hso j hj5
  have h0 : so 0 = none := hso 0 (by omega)
  have h1 : so 1 = none := hso 1 (by omega)
  have h2 : so 2 = none := hso 2 (by omega)
  have htraceH : helloServer.SayHelloStream sid so { name := name } =
      (StreamEvent.sentHeader
          [("server-name", "grpc-sample-server"), ("method", "SayHelloStream"),
           ("stream-id", sid), ("expected-messages", "5")] ::
        ((List.range 5).map
          (fun i => "Hello " ++ name ++ " - Message " ++ toString (i + 1))).map
          StreamEvent.sentMsg ++
        [StreamEvent.setTrailer
          [("messages-sent", "5"), ("stream-duration", "5s"),
           ("stream-status", "completed")]], none) := by
    simp [helloServer.SayHelloStream, hloopH]
  have htraceG : goodbyeServer.SayGoodbyeStream sid fc so { name := name } =
      (StreamEvent.sentHeader
          [("server-name", "grpc-sample-server"), ("method", "SayGoodbyeStream"),
           ("stream-id", sid), ("expected-messages", "3"), ("farewell-type", "streaming")] ::
        [StreamEvent.sentMsg ("Thanks for using our service, " ++ name ++ "!"),
         StreamEvent.sentMsg ("It was great having you, " ++ name ++ "!"),
         StreamEvent.sentMsg ("Until we meet again, " ++ name ++ "! Farewell!")] ++
        [StreamEvent.setTrailer
          [("messages-sent", "3"), ("stream-duration", "4.5s"),
           ("stream-status", "completed"), ("farewell-completed", fc)]], none) := by
    simp [goodbyeServer.SayGoodbyeStream, goodbyeMessages, streamSendLoop, h0, h1, h2]
  refine ⟨htraceH, ?_, ?_, ?_, rfl, htraceG, ?_, ?_, rfl⟩
  · rw [htraceH]
    simp [sentPayloads, sentPayloads_append, sentPayloads_map_sentMsg]
  · intro i hi
    rw [htraceH]
    simp only [sentPayloads, sentPayloads_append, sentPayloads_map_sentMsg, hrange]
    interval_cases i <;> simp [sentPayloads]
  · rw [htraceH]
    simp [trailersOf, trailersOf_append, hrange]
  · rw [htraceG]
    simp [sentPayloads, sentPayloads_append]
  · rw [htraceG]
    simp [trailersOf, trailersOf_append]

/-- C5 witness: all-successful transport, name "World"; the third hello
message is "Hello World - Message 3". -/
theorem serverStream_messages_then_trailer_witness :
    (∀ i, i < 5 → sendOk i = none) ∧
    (sentPayloads (helloServer.SayHelloStream "s" sendOk { name := "World" }).1).getD 2 "" =
      "Hello World - Message 3" ∧
    (sentPayloads (goodbyeServer.SayGoodbyeStream "s" "f" sendOk { name := "World" }).1).length
      = 3 := by
  have h := serverStream_messages_then_trailer "s" "f" "World" sendOk (fun i _ => rfl)
  refine ⟨fun i _ => rfl, ?_, h.2.2.2.2.2.2.1⟩
  have h3 := h.2.2.1 2 (by decide)
  simpa using h3

/-- C6 counterexample. A call through the RPC transport with an empty name
is NOT default-substituted: the unary hello handler invoked with name `""`
replies "Hello " (and goodbye "Goodbye ! See you later!"), not the
default-substituted "Hello World". Only the REST handlers substitute. -/
theorem rpc_empty_name_not_defaulted :
    (helloServer.SayHello "t" "r" { name := "" }).reply.message = "Hello " ∧
    (goodbyeServer.SayGoodbye "t" "s" { name := "" }).reply.message =
      "Goodbye ! See you later!" ∧
    ¬ (helloServer.SayHello "t" "r" { name := "" }).reply.message = "Hello World" := by
  refine ⟨rfl, rfl, by decide⟩

/-- C6 amended: empty-name default substitution happens on the REST path
only (GET query and POST JSON body, for both routes), while a call through
the RPC transport with an empty name reaches the business logic unchanged
and yields the greeting built from the empty string. -/
theorem empty_name_defaulted_rest_only (ts rid se q : String)
    (b : Except String HelloRequest) :
    (helloServer.handleSayHelloHTTP ts rid
        { method := HTTPMethod.get, queryName := "", body := b }).1 =
      RESTResult.okJSON "Hello World" ∧
    (helloServer.handleSayHelloHTTP ts rid
        { method := HTTPMethod.post, queryName := q,
          body := Except.ok { name := "" } }).1 = RESTResult.okJSON "Hello World" ∧
    (goodbyeServer.handleSayGoodbyeHTTP ts se
        { method := HTTPMethod.get, queryName := "", body := b }).1 =
      RESTResult.okJSON "Goodbye Friend! See you later!" ∧
    (goodbyeServer.handleSayGoodbyeHTTP ts se
        { method := HTTPMethod.post, queryName := q,
          body := Except.ok { name := "" } }).1 =
      RESTResult.okJSON "Goodbye Friend! See you later!" ∧
    (helloServer.SayHello ts rid { name := "" }).reply.message = "Hello " ∧
    (goodbyeServer.SayGoodbye ts se { name := "" }).reply.message =
      "Goodbye ! See you later!" := by
  refine ⟨rfl, rfl, rfl, rfl, rfl, rfl⟩

/-- C7. REST requests to /api/hello and /api/goodbye replace a missing or
empty name (GET query parameter or POST JSON body field) by the per-route
default — "World" for hello, "Friend" for goodbye — rather than erroring;
the business function is invoked with the substituted name and the success
response wraps the resulting message; a non-empty name is passed through. -/
theorem rest_default_substitution (ts rid se q n : String)
    (b : Except String HelloRequest) :
    (q = "" → helloServer.handleSayHelloHTTP ts rid
        { method := HTTPMethod.get, queryName := q, body := b } =
      (RESTResult.okJSON "Hello World", some "World")) ∧
    (¬ q = "" → helloServer.handleSayHelloHTTP ts rid
        { method := HTTPMethod.get, queryName := q, body := b } =
      (RESTResult.okJSON ("Hello " ++ q), some q)) ∧
    helloServer.handleSayHelloHTTP ts rid
        { method := HTTPMethod.post, queryName := q, body := Except.ok { name := "" } } =
      (RESTResult.okJSON "Hello World", some "World") ∧
    (¬ n = "" → helloServer.handleSayHelloHTTP ts rid
        { method := HTTPMethod.post, queryName := q, body := Except.ok { name := n } } =
      (RESTResult.okJSON ("Hello " ++ n), some n)) ∧
    (q = "" → goodbyeServer.handleSayGoodbyeHTTP ts se
        { method := HTTPMethod.get, queryName := q, body := b } =
      (RESTResult.okJSON "Goodbye Friend! See you later!", some "Friend")) ∧
    (¬ q = "" → goodbyeServer.handleSayGoodbyeHTTP ts se
        { method := HTTPMethod.get, queryName := q, body := b } =
      (RESTResult.okJSON ("Goodbye " ++ q ++ "! See you later!"), some q)) ∧
    goodbyeServer.handleSayGoodbyeHTTP ts se
        { method := HTTPMethod.post, queryName := q, body := Except.ok { name := "" } } =
      (RESTResult.okJSON "Goodbye Friend! See you later!", some "Friend") ∧
    (¬ n = "" → goodbyeServer.handleSayGoodbyeHTTP ts se
        { method := HTTPMethod.post, queryName := q, body := Except.ok { name := n } } =
      (RESTResult.okJSON ("Goodbye " ++ n ++ "! See you later!"), some n)) := by
  refine ⟨?_, ?_, rfl, ?_, ?_, ?_, rfl, ?_⟩ <;> intro h <;>
    simp [helloServer.handleSayHelloHTTP, goodbyeServer.handleSayGoodbyeHTTP,
      helloServer.SayHello, goodbyeServer.SayGoodbye, h]

/-- C7 witness: empty GET query and a non-empty POST body name. -/
theorem rest_default_substitution_witness :
    ("" : String) = "" ∧ ¬ ("Bob" : String) = "" ∧
    helloServer.handleSayHelloHTTP "t" "r"
        { method := HTTPMethod.get, queryName := "",
          body := Except.ok { name := "ignored" } } =
      (RESTResult.okJSON "Hello World", some "World") ∧
    goodbyeServer.handleSayGoodbyeHTTP "t" "s"
        { method := HTTPMethod.post, queryName := "",
          body := Except.ok { name := "Bob" } } =
      (RESTResult.okJSON "Goodbye Bob! See you later!", some "Bob") := by
  have h := rest_default_substitution "t" "r" "s" "" "Bob" (Except.ok { name := "ignored" })
  have hb : ¬ ("Bob" : String) = "" := by decide
  exact ⟨rfl, hb, h.1 rfl, h.2.2.2.2.2.2.2 hb⟩

/-- C8. A REST POST whose body is malformed JSON yields the 400 "Invalid
JSON" error on both routes; the business function is not invoked (no name
is recorded) and no success response is written. -/
theorem rest_malformed_json_400 (ts rid se q e : String) :
    helloServer.handleSayHelloHTTP ts rid
        { method := HTTPMethod.post, queryName := q, body := Except.error e } =
      (RESTResult.httpError "Invalid JSON" 400, none) ∧
    goodbyeServer.handleSayGoodbyeHTTP ts se
        { method := HTTPMethod.post, queryName := q, body := Except.error e } =
      (RESTResult.httpError "Invalid JSON" 400, none) := by
  exact ⟨rfl, rfl⟩

/-- C9 counterexample. In the client-streaming handler the trailer-setting
step IS reached on a send-error path: with end-of-input received and a
transport whose `SendAndClose` fails, the handler returns the send error
yet its trace contains a `SetTrailer` step (the source calls
`stream.SetTrailer` before `stream.SendAndClose`). -/
theorem clientStream_send_error_trailer_reached :
    (helloServer.SayHelloClientStream "s" (fun _ => some "transport broken")
        { msgs := [], term := Terminator.eof }).2 = some "transport broken" ∧
    (helloServer.SayHelloClientStream "s" (fun _ => some "transport broken")
        { msgs := [], term := Terminator.eof }).1.any isTrailerSet = true := by
  exact ⟨rfl, rfl⟩

/-- C9 amended. Streaming handlers distinguish the end-of-input sentinel
(normal completion: trailers set, success returned — for client-stream the
single reply sent and closed) from other errors: on a receive error, or a
send error inside the server-streaming or bidirectional loops, the handler
aborts at once, returns that failure, and never reaches the trailer-setting
step; the one exception is the client-streaming handlers, which set the
trailer before the final `SendAndClose`, so a failure of that last send
returns the error with the trailer-setting step already performed. -/
theorem streaming_error_propagation (sid se name n e : String) (so sob : SendOracle)
    (ns rest : List String) (t : Terminator)
    (hok : ∀ j, so j = none) (hbad : sob 0 = some e) :
    ((helloServer.SayHelloClientStream sid so { msgs := ns, term := Terminator.recvErr e }).2 =
        some e ∧
      trailersOf (helloServer.SayHelloClientStream sid so
        { msgs := ns, term := Terminator.recvErr e }).1 = [] ∧
      (helloServer.SayHelloClientStream sid so
        { msgs := ns, term := Terminator.recvErr e }).1.filter isReplyClose = []) ∧
    ((goodbyeServer.SayGoodbyeClientStream sid se so
        { msgs := ns, term := Terminator.recvErr e }).2 = some e ∧
      trailersOf (goodbyeServer.SayGoodbyeClientStream sid se so
        { msgs := ns, term := Terminator.recvErr e }).1 = []) ∧
    ((helloServer.SayHelloBidirectional sid so
        { msgs := ns, term := Terminator.recvErr e }).2 = some e ∧
      trailersOf (helloServer.SayHelloBidirectional sid so
        { msgs := ns, term := Terminator.recvErr e }).1 = []) ∧
    helloServer.SayHelloBidirectional sid sob { msgs := n :: rest, term := t } =
      (StreamEvent.sentHeader
          [("server-name", "grpc-sample-server"), ("method", "SayHelloBidirectional"),
           ("stream-id", sid), ("stream-type", "bidirectional")] ::
        [StreamEvent.recvMsg n, StreamEvent.sendFailed e], some e) ∧
    helloServer.SayHelloStream sid sob { name := name } =
      (StreamEvent.sentHeader
          [("server-name", "grpc-sample-server"), ("method", "SayHelloStream"),
           ("stream-id", sid), ("expected-messages", "5")] ::
        [StreamEvent.sendFailed e], some e) ∧
    (helloServer.SayHelloClientStream sid so { msgs := ns, term := Terminator.eof }).2 =
      none ∧
    ((helloServer.SayHelloClientStream sid sob { msgs := ns, term := Terminator.eof }).2 =
        some e ∧
      trailersOf (helloServer.SayHelloClientStream sid sob
        { msgs := ns, term := Terminator.eof }).1 =
        [[("messages-received", toString ns.length),
          ("names-processed", String.intercalate "," ns),
          ("stream-status", "completed"), ("processing-time", "batch")]]) := by
  have hfilter := filter_map_recvMsg isReplyClose (fun m => rfl) ns
  have htrail := trailersOf_map_recvMsg ns
  have hbidi := bidiLoop_ok so helloBidiReply ns [] 0 (fun j _ => hok (0 + j))
  refine ⟨⟨?_, ?_, ?_⟩, ⟨?_, ?_⟩, ⟨?_, ?_⟩, ?_, ?_, ?_, ⟨?_, ?_⟩⟩ <;>
    simp [helloServer.SayHelloClientStream, goodbyeServer.SayGoodbyeClientStream,
      helloServer.SayHelloBidirectional, helloServer.SayHelloStream,
      bidiLoop, streamSendLoop, recvEvents, collectLoop_eq, hok 0, hbad, hbidi,
      trailersOf, trailersOf_append, trailersOf_bidiEvents, htrail,
      List.filter_append, hfilter, isReplyClose]

/-- C9 witness: concrete oracles discharging both transport hypotheses. -/
theorem streaming_error_propagation_witness :
    (∀ j, sendOk j = none) ∧ (fun _ => some "boom" : SendOracle) 0 = some "boom" ∧
    (helloServer.SayHelloClientStream "s" sendOk
        { msgs := ["A"], term := Terminator.recvErr "boom" }).2 = some "boom" ∧
    trailersOf (helloServer.SayHelloStream "s" (fun _ => some "boom")
        { name := "W" }).1 = [] := by
  have h := streaming_error_propagation "s" "e" "W" "A" "boom" sendOk
    (fun _ => some "boom") ["A"] [] Terminator.eof (fun j => rfl) rfl
  refine ⟨fun j => rfl, rfl, h.1.1, ?_⟩
  rw [h.2.2.2.2.1]
  rfl

/-- C10. The received-message counter of the accumulation loop equals the
length of the accumulated names at completion from any state satisfying the
invariant, and one loop step preserves the invariant; consequently, for any
input sequence (the empty one included), the count in the client-stream
reply text, the "messages-received" trailer value and the joined
"names-processed" trailer value all report the same k inputs, for both
client-streaming handlers, and the bidirectional trailer counts equal the
number of processed names. Zero inputs yield the reply reporting 0 with
empty name lists and a `nil` error, not a failure. -/
theorem counter_matches_names (sid se n0 : String) (msgs names ns : List String)
    (count : Nat) (hinv : count = names.length) :
    (collectLoop msgs names count).2 = (collectLoop msgs names count).1.length ∧
    count + 1 = (names ++ [n0]).length ∧
    (helloServer.SayHelloClientStream sid sendOk
        { msgs := ns, term := Terminator.eof }).1.filter isReplyClose =
      [StreamEvent.sentReplyAndClosed
        ("Hello to all " ++ toString ns.length ++ " friends: " ++
         String.intercalate ", " ns ++ "!")] ∧
    trailersOf (helloServer.SayHelloClientStream sid sendOk
        { msgs := ns, term := Terminator.eof }).1 =
      [[("messages-received", toString ns.length),
        ("names-processed", String.intercalate "," ns),
        ("stream-status", "completed"), ("processing-time", "batch")]] ∧
    (goodbyeServer.SayGoodbyeClientStream sid se sendOk
        { msgs := ns, term := Terminator.eof }).1.filter isReplyClose =
      [StreamEvent.sentReplyAndClosed
        ("Farewell to all " ++ toString ns.length ++ " wonderful people: " ++
         String.intercalate ", " ns ++ "! May your paths be bright!")] ∧
    trailersOf (goodbyeServer.SayGoodbyeClientStream sid se sendOk
        { msgs := ns, term := Terminator.eof }).1 =
      [[("messages-received", toString ns.length),
        ("names-processed", String.intercalate "," ns),
        ("stream-status", "completed"), ("farewell-type", "collective"),
        ("session-ended", se)]] ∧
    trailersOf (helloServer.SayHelloBidirectional sid sendOk
        { msgs := ns, term := Terminator.eof }).1 =
      [[("messages-exchanged", toString ns.length),
        ("names-processed", String.intercalate "," ns),
        ("stream-status", "completed"),
        ("stream-duration", durTenths (5 * ns.length))]] ∧
    helloServer.SayHelloClientStream sid sendOk { msgs := [], term := Terminator.eof } =
      ([StreamEvent.sentHeader
          [("server-name", "grpc-sample-server"), ("method", "SayHelloClientStream"),
           ("stream-id", sid), ("stream-type", "client-streaming")],
        StreamEvent.recvEOF,
        StreamEvent.setTrailer
          [("messages-received", "0"), ("names-processed", ""),
           ("stream-status", "completed"), ("processing-time", "batch")],
        StreamEvent.sentReplyAndClosed "Hello to all 0 friends: !"], none) := by
  have hfilter := filter_map_recvMsg isReplyClose (fun m => rfl) ns
  have htrail := trailersOf_map_recvMsg ns
  have hbidi := bidiLoop_ok sendOk helloBidiReply ns [] 0 (fun j _ => rfl)
  refine ⟨?_, ?_, ?_, ?_, ?_, ?_, ?_, ?_⟩ <;>
    simp [helloServer.SayHelloClientStream, goodbyeServer.SayGoodbyeClientStream,
      helloServer.SayHelloBidirectional, recvEvents, collectLoop_eq, sendOk, hbidi,
      trailersOf, trailersOf_append, trailersOf_bidiEvents, htrail,
      List.filter_append, hfilter, isReplyClose, hinv]
  decide

/-- C10 witness: the invariant holds at the initial state and is preserved
there; one concrete input and the empty input. -/
theorem counter_matches_names_witness :
    (0 : Nat) = ([] : List String).length ∧
    (collectLoop ["A", "B"] [] 0).2 = (collectLoop ["A", "B"] [] 0).1.length ∧
    (helloServer.SayHelloClientStream "s" sendOk
        { msgs := [], term := Terminator.eof }).2 = none := by
  have h := counter_matches_names "s" "e" "X" ["A", "B"] [] [] 0 rfl
  refine ⟨rfl, h.1, ?_⟩
  rw [h.2.2.2.2.2.2.2]

/-- C2. The unary hello handler replies "Hello " ++ name and the unary goodbye
handler replies "Goodbye " ++ name ++ "! See you later!"; for input "World"
the replies are "Hello World" and "Goodbye World! See you later!". Each
handler produces exactly one reply: `UnaryOutcome` carries a single `reply`,
matching the Go signatures that return one message. -/
theorem unary_replies (ts rid se name : String) :
    (helloServer.SayHello ts rid { name := name }).reply.message = "Hello " ++ name ∧
    (goodbyeServer.SayGoodbye ts se { name := name }).reply.message =
      "Goodbye " ++ name ++ "! See you later!" ∧
    (helloServer.SayHello ts rid { name := "World" }).reply.message = "Hello World" ∧
    (goodbyeServer.SayGoodbye ts se { name := "World" }).reply.message =
      "Goodbye World! See you later!" := by
  refine ⟨rfl, rfl, rfl, rfl⟩
